import Mathlib

/-!
Verification of the shot-box media cataloguing program.

The definitions below are a shallow embedding of the Python sources:
`app/infra/repository/media_database.py` (the store),
`app/infra/entities/media_model.py` (the persisted row type),
`app/logic.py` (metadata extraction, the ingestion pipeline and the
consistency checker), `app/utils.py` and `app/geolocation.py` (GPS and
geolocation helpers) and `app/gui_typer.py` (the batch driver of the
`add` command).

Python values are modelled as follows: strings as `String`, floats
(GPS coordinates) as `Rat`, `None`-able values as `Option`, raised
exceptions as `Except PyError`, the database as the list of its rows in
insertion order, and the filesystem as the list of the files that exist,
a path being the list of its components.
-/

namespace ShotBox

/-- The Python exception classes the embedded code can raise.
`multipleResultsFound` is SQLAlchemy's error for `one_or_none` applied
to a query with two or more result rows. -/
inductive PyError where
  | typeError
  | valueError
  | attributeError
  | zeroDivisionError
  | nameError
  | multipleResultsFound
deriving DecidableEq, Repr

/-- A filesystem path, as its list of components (last one is the file name). -/
abbrev FsPath := List String

/-- The filesystem: the set of files that exist, as a list of paths. -/
abbrev FileSys := List FsPath

/-- A simple Gregorian timestamp, the result of `datetime.strptime`. -/
structure PyDateTime where
  year : Nat
  month : Nat
  day : Nat
  hour : Nat
  minute : Nat
  second : Nat
deriving DecidableEq, Repr

/-- One row of the `media` table, after `app/infra/entities/media_model.py`.
`new_filepath` defaults to the empty string in the source; the empty string is
modelled as `none`.  Columns are otherwise kept with their source names. -/
structure MediaDBModel where
  original_filepath : FsPath
  camera : Option String := none
  datetime : Option PyDateTime := none
  file_type : Option String := none
  size : Nat := 0
  width : Option Int := none
  height : Option Int := none
  resolution_units : Option String := none
  resolution_x : Option Int := none
  resolution_y : Option Int := none
  location_longitude : Option Rat := none
  location_latitude : Option Rat := none
  location_country : Option String := none
  location_state : Option String := none
  location_city : Option String := none
  perceptual_hash : String
  crypto_hash : String
  new_filepath : Option FsPath := none
  n_perceptual_hash : Nat := 0
deriving DecidableEq, Repr

/-- `MediaDatabase.insert_media` (media_database.py lines 69-98): if a row
with the same `crypto_hash` exists the call returns `None` and writes
nothing; otherwise `n_perceptual_hash` is set to the number of existing
rows sharing `perceptual_hash`, the row is committed, and that count is
returned.  The state after the call is returned alongside the result. -/
def insert_media (db : List MediaDBModel) (media : MediaDBModel) :
    List MediaDBModel × Option Nat :=
  if db.any (fun r => r.crypto_hash == media.crypto_hash) then
    (db, none)
  else
    let n := (db.filter (fun r => r.perceptual_hash == media.perceptual_hash)).length
    (db ++ [{ media with n_perceptual_hash := n }], some n)

/-- Inserting the given rows one after the other, collecting each call's
return value (`app/gui_typer.py` drives `insert` exactly this way, one file
at a time). -/
def insert_media_seq : List MediaDBModel → List MediaDBModel →
    List MediaDBModel × List (Option Nat)
  | db, [] => (db, [])
  | db, m :: ms =>
    let step := insert_media db m
    let rest := insert_media_seq step.1 ms
    (rest.1, step.2 :: rest.2)

/-- C1: inserting a record whose `crypto_hash` matches a stored record
returns DUPLICATE (`None`) and leaves the row list unchanged; inserting a
record whose `crypto_hash` matches no stored record appends exactly that
record (with its rank filled in) and returns its duplicate rank. -/
theorem insert_media_duplicate_spec (db : List MediaDBModel) (m : MediaDBModel) :
    ((∃ r ∈ db, r.crypto_hash = m.crypto_hash) → insert_media db m = (db, none)) ∧
    ((∀ r ∈ db, r.crypto_hash ≠ m.crypto_hash) →
      insert_media db m =
        (db ++ [{ m with n_perceptual_hash :=
            (db.filter (fun r => r.perceptual_hash == m.perceptual_hash)).length }],
          some ((db.filter (fun r => r.perceptual_hash == m.perceptual_hash)).length))) := by
  constructor
  · rintro ⟨r, hr, he⟩
    have h : db.any (fun r => r.crypto_hash == m.crypto_hash) = true := by
      rw [List.any_eq_true]
      exact ⟨r, hr, by simp [he]⟩
    simp [insert_media, h]
  · intro h
    have h' : db.any (fun r => r.crypto_hash == m.crypto_hash) = false := by
      rw [List.any_eq_false]
      intro r hr
      simpa using h r hr
    simp [insert_media, h']

/-- Concrete sample rows used by the witnesses. -/
def rowA : MediaDBModel :=
  { original_filepath := ["src", "a.jpg"], perceptual_hash := "p", crypto_hash := "c1" }

/-- A byte-identical copy of `rowA` under another path: same `crypto_hash`. -/
def rowAcopy : MediaDBModel :=
  { original_filepath := ["src", "a2.jpg"], perceptual_hash := "p", crypto_hash := "c1" }

/-- A near-duplicate of `rowA`: same `perceptual_hash`, fresh `crypto_hash`. -/
def rowB : MediaDBModel :=
  { original_filepath := ["src", "b.jpg"], perceptual_hash := "p", crypto_hash := "c2" }

/-- A second near-duplicate with a fresh `crypto_hash`. -/
def rowC : MediaDBModel :=
  { original_filepath := ["src", "c.jpg"], perceptual_hash := "p", crypto_hash := "c3" }

/-- An unrelated row with a different `perceptual_hash`. -/
def rowD : MediaDBModel :=
  { original_filepath := ["src", "d.jpg"], perceptual_hash := "q", crypto_hash := "c9" }

/-- Witness for C1 at concrete inputs. -/
theorem insert_media_duplicate_spec_witness :
    insert_media [rowA] rowAcopy = ([rowA], none) ∧
    insert_media [rowA] rowB = ([rowA, { rowB with n_perceptual_hash := 1 }], some 1) := by
  constructor
  · exact (insert_media_duplicate_spec [rowA] rowAcopy).1 ⟨rowA, by simp, by decide⟩
  · have h := (insert_media_duplicate_spec [rowA] rowB).2 (by
      intro r hr
      simp only [List.mem_singleton] at hr
      subst hr
      decide)
    rw [h]
    decide

/-- Helper for C2: sequential insertion of same-`perceptual_hash` records with
pairwise fresh `crypto_hash` yields the consecutive ranks starting at the
current count of stored records with that hash. -/
theorem insert_media_seq_ranks (p : String) :
    ∀ (ms db : List MediaDBModel),
      (∀ m ∈ ms, m.perceptual_hash = p) →
      ms.Pairwise (fun a b => a.crypto_hash ≠ b.crypto_hash) →
      (∀ m ∈ ms, ∀ r ∈ db, r.crypto_hash ≠ m.crypto_hash) →
      (insert_media_seq db ms).2 =
        ((List.range' ((db.filter (fun r => r.perceptual_hash == p)).length)
          ms.length).map some)
  | [], db, _, _, _ => by simp [insert_media_seq]
  | m :: ms, db, hp, hdist, hfresh => by
    have hmp : m.perceptual_hash = p := hp m (List.mem_cons_self m ms)
    have hnodup : ∀ r ∈ db, r.crypto_hash ≠ m.crypto_hash := fun r hr =>
      hfresh m (List.mem_cons_self m ms) r hr
    have hstep := (insert_media_duplicate_spec db m).2 hnodup
    have hfilter :
        (db.filter (fun r => r.perceptual_hash == m.perceptual_hash)) =
          (db.filter (fun r => r.perceptual_hash == p)) := by
      rw [hmp]
    set k := (db.filter (fun r => r.perceptual_hash == p)).length with hk
    set m' : MediaDBModel := { m with n_perceptual_hash := k } with hm'
    have hstep' : insert_media db m = (db ++ [m'], some k) := by
      rw [hstep, hfilter]
    have hcount :
        ((db ++ [m']).filter (fun r => r.perceptual_hash == p)).length = k + 1 := by
      rw [List.filter_append]
      have : [m'].filter (fun r => r.perceptual_hash == p) = [m'] := by
        simp [hm', hmp]
      rw [this, List.length_append]
      simp [hk]
    have hrec := insert_media_seq_ranks p ms (db ++ [m'])
      (fun x hx => hp x (List.mem_cons_of_mem m hx))
      ((List.pairwise_cons.mp hdist).2)
      (by
        intro x hx r hr
        rcases List.mem_append.mp hr with hdb | hm1
        · exact hfresh x (List.mem_cons_of_mem m hx) r hdb
        · have : r = m' := by simpa using hm1
          subst this
          have : m.crypto_hash ≠ x.crypto_hash :=
            (List.pairwise_cons.mp hdist).1 x hx
          simpa [hm'] using this)
    show ((insert_media_seq (insert_media db m).1 ms).1,
        (insert_media db m).2 :: (insert_media_seq (insert_media db m).1 ms).2).2 = _
    rw [hstep']
    simp only []
    rw [hrec, hcount]
    simp [List.range'_succ]

/-- C2: (general part) a successful insert returns exactly the count of
already-stored records sharing the new record's `perceptual_hash`;
(sequence part) n records sharing one `perceptual_hash`, with pairwise
distinct and store-fresh `crypto_hash`, inserted in sequence into a store
with no record of that `perceptual_hash`, receive ranks 0, 1, ..., n-1 in
insertion order. -/
theorem insert_media_rank_spec :
    (∀ (db : List MediaDBModel) (m : MediaDBModel),
      (∀ r ∈ db, r.crypto_hash ≠ m.crypto_hash) →
      (insert_media db m).2 =
        some ((db.filter (fun r => r.perceptual_hash == m.perceptual_hash)).length)) ∧
    (∀ (p : String) (ms db : List MediaDBModel),
      (∀ m ∈ ms, m.perceptual_hash = p) →
      ms.Pairwise (fun a b => a.crypto_hash ≠ b.crypto_hash) →
      (∀ m ∈ ms, ∀ r ∈ db, r.crypto_hash ≠ m.crypto_hash) →
      (∀ r ∈ db, r.perceptual_hash ≠ p) →
      (insert_media_seq db ms).2 = (List.range ms.length).map some) := by
  constructor
  · intro db m h
    rw [(insert_media_duplicate_spec db m).2 h]
  · intro p ms db hp hdist hfresh hnone
    have hzero : (db.filter (fun r => r.perceptual_hash == p)).length = 0 := by
      rw [List.length_eq_zero, List.filter_eq_nil_iff]
      intro r hr
      simpa using hnone r hr
    rw [insert_media_seq_ranks p ms db hp hdist hfresh, hzero, ← List.range_eq_range']

/-- Witness for C2 at concrete inputs: inserting `rowB`, `rowC` (both of
`perceptual_hash` "p") into a store holding only `rowD` yields ranks 0, 1. -/
theorem insert_media_rank_spec_witness :
    (insert_media [rowD] rowB).2 = some 0 ∧
    (insert_media_seq [rowD] [rowB, rowC]).2 = [some 0, some 1] := by
  constructor
  · have h := insert_media_rank_spec.1 [rowD] rowB (by
      intro r hr
      simp only [List.mem_singleton] at hr
      subst hr
      decide)
    rw [h]
    decide
  · have h := insert_media_rank_spec.2 "p" [rowB, rowC] [rowD]
      (by intro m hm; fin_cases hm <;> decide)
      (by
        refine List.pairwise_cons.mpr ⟨?_, ?_⟩
        · intro b hb
          simp only [List.mem_singleton] at hb
          subst hb
          decide
        · simp)
      (by
        intro m hm r hr
        simp only [List.mem_singleton] at hr
        subst hr
        fin_cases hm <;> decide)
      (by
        intro r hr
        simp only [List.mem_singleton] at hr
        subst hr
        decide)
    rw [h]
    decide

/-- Fuel-indexed splitter over character lists (fuel at least the list
length makes it total): split on non-overlapping occurrences of the
non-empty separator, left to right, as Python `str.split` does with an
explicit separator.  Structural recursion keeps it kernel-computable. -/
def splitChars (sep : List Char) : Nat → List Char → List Char → List (List Char)
  | _, acc, [] => [acc.reverse]
  | 0, acc, rest => [acc.reverse ++ rest]
  | fuel + 1, acc, c :: cs =>
    if sep.isPrefixOf (c :: cs) then
      acc.reverse :: splitChars sep fuel [] (cs.drop (sep.length - 1))
    else
      splitChars sep fuel (c :: acc) cs

/-- Python `s.split(sep)` for a non-empty separator (the only way the
embedded code calls it). -/
def pySplitOn (s sep : String) : List String :=
  if sep.toList.isEmpty then [s]
  else (splitChars sep.toList s.toList.length [] s.toList).map String.mk

/-- Numeric value of a digit string. -/
def natOfDigits (cs : List Char) : Nat :=
  cs.foldl (fun n c => n * 10 + (c.toNat - '0'.toNat)) 0

/-- Upper-cased string (`str.upper` on ASCII content). -/
def pyUpper (s : String) : String := String.mk (s.toList.map Char.toUpper)

/-- Lower-cased string (`str.lower` on ASCII content). -/
def pyLower (s : String) : String := String.mk (s.toList.map Char.toLower)

/-- Python `str.strip()`: surrounding whitespace removed. -/
def pyTrim (s : String) : String :=
  String.mk
    (((s.toList.dropWhile Char.isWhitespace).reverse.dropWhile
      Char.isWhitespace).reverse)

/-- `pathlib.PurePath.suffix`: the final component's extension, dot included;
empty when there is no dot, the only dot leads, or the dot is last. -/
def pySuffix (name : String) : String :=
  let cs := name.toList
  match cs.reverse.findIdx? (fun c => c == '.') with
  | none => ""
  | some j =>
    let i := cs.length - 1 - j
    if 0 < i ∧ i < cs.length - 1 then String.mk (cs.drop i) else ""

/-- `pathlib.PurePath.stem`: the final component without its suffix. -/
def pyStem (name : String) : String :=
  let cs := name.toList
  match cs.reverse.findIdx? (fun c => c == '.') with
  | none => name
  | some j =>
    let i := cs.length - 1 - j
    if 0 < i ∧ i < cs.length - 1 then String.mk (cs.take i) else name

/-- The final path component (`Path.name`). -/
def fileName (p : FsPath) : String := p.getLastD ""

/-- `app.utils.scan_folder` (utils.py lines 18-25): `folder_path.glob("*")`
lists direct children only; keep those that are files and whose lower-cased
suffix is in `image_exts`. -/
def scan_folder (fs : FileSys) (folder_path : FsPath) (image_exts : List String) :
    List FsPath :=
  fs.filter (fun p =>
    p.dropLast == folder_path && image_exts.contains (pyLower (pySuffix (fileName p))))

/-- Is there a file at this path? (`Path(...).is_file()`; the empty string,
modelled as `none`, is not a file.) -/
def isFile (fs : FileSys) (p : Option FsPath) : Bool :=
  match p with
  | none => false
  | some q => fs.contains q

/-- The dictionary returned by `ImageOrganizer.get_info`. -/
structure InfoResult where
  total_photos : Nat
  total_size : Nat
  files_exist : Nat
deriving DecidableEq, Repr

/-- `ImageOrganizer.get_info` (logic.py lines 187-213).  The loop body
`files_exist += 1 if Path(photo.new_filepath).is_file() else 1` is kept
exactly as written: both branches add 1. -/
def get_info (db : List MediaDBModel) (fs : FileSys) : InfoResult :=
  { total_photos := db.length
    total_size := (db.map (fun photo => photo.size)).sum
    files_exist :=
      (db.map (fun photo => if isFile fs photo.new_filepath then 1 else 1)).sum }

/-- C9: `get_info` reports `files_exist` equal to `total_photos` (the number
of stored rows) for every store state and filesystem, because both branches
of the existence test add 1. -/
theorem get_info_files_exist_eq_total (db : List MediaDBModel) (fs : FileSys) :
    (get_info db fs).files_exist = (get_info db fs).total_photos ∧
    (get_info db fs).total_photos = db.length := by
  refine ⟨?_, rfl⟩
  show (db.map (fun photo => if isFile fs photo.new_filepath then 1 else 1)).sum
      = db.length
  induction db with
  | nil => rfl
  | cons a l ih => simp [ih, Nat.add_comm]

/-- `MediaDatabase.search_by_perceptualhash` (media_database.py lines
135-151): a filtered query finished by SQLAlchemy's `one_or_none`, which
returns `None` on no row, the row on exactly one, and raises
`MultipleResultsFound` on two or more. -/
def search_by_perceptualhash (db : List MediaDBModel) (perceptual_hash : String) :
    Except PyError (Option MediaDBModel) :=
  match db.filter (fun r => r.perceptual_hash == perceptual_hash) with
  | [] => .ok none
  | [m] => .ok (some m)
  | _ => .error .multipleResultsFound

/-- C10: when two or more stored records share the searched
`perceptual_hash`, `search_by_perceptualhash` raises instead of returning a
record; it returns an absent result exactly when no record matches, and the
single matching record when exactly one does. -/
theorem search_by_perceptualhash_spec (db : List MediaDBModel) (h : String) :
    (2 ≤ (db.filter (fun r => r.perceptual_hash == h)).length →
      search_by_perceptualhash db h = .error .multipleResultsFound) ∧
    (search_by_perceptualhash db h = .ok none ↔
      db.filter (fun r => r.perceptual_hash == h) = []) ∧
    (∀ m, db.filter (fun r => r.perceptual_hash == h) = [m] →
      search_by_perceptualhash db h = .ok (some m)) := by
  rcases hf : db.filter (fun r => r.perceptual_hash == h) with - | ⟨a, tl⟩
  · refine ⟨?_, ?_, ?_⟩
    · intro h2
      rw [hf] at h2
      simp at h2
    · simp [search_by_perceptualhash, hf]
    · intro m hm
      rw [hf] at hm
      simp at hm
  · rcases tl with - | ⟨b, t⟩
    · refine ⟨?_, ?_, ?_⟩
      · intro h2
        rw [hf] at h2
        simp at h2
      · simp [search_by_perceptualhash, hf]
      · intro m hm
        rw [hf] at hm
        simp only [List.cons.injEq, and_true] at hm
        simp [search_by_perceptualhash, hf, hm]
    · refine ⟨?_, ?_, ?_⟩
      · intro _
        simp [search_by_perceptualhash, hf]
      · simp [search_by_perceptualhash, hf]
      · intro m hm
        rw [hf] at hm
        simp at hm

/-- Witness for C10 at concrete inputs: `rowA` and `rowB` share
`perceptual_hash` "p"; `rowD` has "q". -/
theorem search_by_perceptualhash_spec_witness :
    search_by_perceptualhash [rowA, rowB] "p" = .error .multipleResultsFound ∧
    search_by_perceptualhash [rowD] "p" = .ok none ∧
    search_by_perceptualhash [rowA, rowD] "p" = .ok (some rowA) :=
  ⟨(search_by_perceptualhash_spec [rowA, rowB] "p").1 (by decide),
    ((search_by_perceptualhash_spec [rowD] "p").2.1).mpr (by decide),
    (search_by_perceptualhash_spec [rowA, rowD] "p").2.2 rowA (by decide)⟩

/-- Keyword parameters in the signature of `app.utils.scan_folder`
(utils.py line 18): `def scan_folder(folder_path, image_exts)`. -/
def scan_folder_params : List String := ["folder_path", "image_exts"]

/-- Keyword arguments supplied at the `scan_folder` call inside
`ImageOrganizer.check_consistency` (logic.py line 305):
`scan_folder(self.repo_path, image_ext, recursive=True)`. -/
def check_consistency_scan_kwargs : List String := ["recursive"]

/-- The four classification sets returned by `check_consistency`. -/
structure ConsistencyResult where
  exist_db_not_copied : List FsPath
  exist_db_not_repo : List FsPath
  exist_repo_not_db : List FsPath
  exist_repo_incorrect_name : List FsPath
deriving DecidableEq, Repr

/-- Python `list.remove`: drops the first occurrence, raises `ValueError`
when the element is absent. -/
def pyListRemove (l : List FsPath) (x : FsPath) : Except PyError (List FsPath) :=
  if l.contains x then .ok (l.erase x) else .error .valueError

/-- One iteration of the row loop of `ImageOrganizer.check_consistency`
(logic.py lines 307-325).  `phash_of` is the perceptual hash of the file
currently stored at a path (`perceptual_hash(Path(row.new_filepath))`). -/
def check_consistency_row (phash_of : FsPath → String) (fs : FileSys)
    (acc : ConsistencyResult) (row : MediaDBModel) :
    Except PyError ConsistencyResult :=
  match row.new_filepath with
  | some np =>
    if fs.contains np then
      if (pySplitOn (pyStem (fileName np)) "_").headD "" == phash_of np then do
        let rem ← pyListRemove acc.exist_repo_not_db np
        .ok { acc with exist_repo_not_db := rem }
      else
        .ok { acc with
          exist_repo_incorrect_name := acc.exist_repo_incorrect_name ++ [np] }
    else
      .ok { acc with exist_db_not_repo := acc.exist_db_not_repo ++ [np] }
  | none =>
    .ok { acc with
      exist_db_not_copied := acc.exist_db_not_copied ++ [row.original_filepath] }

/-- `ImageOrganizer.check_consistency` (logic.py lines 299-332).  Its first
statement after `get_all` initialises `exist_repo_not_db` with
`scan_folder(self.repo_path, image_ext, recursive=True)`; `recursive` is not
a parameter of `app.utils.scan_folder` (utils.py line 18), so Python raises
`TypeError` at that call, before any row is examined. -/
def check_consistency (phash_of : FsPath → String) (db : List MediaDBModel)
    (fs : FileSys) (repo_path : FsPath) (image_ext : List String) :
    Except PyError ConsistencyResult :=
  if check_consistency_scan_kwargs.all (fun k => scan_folder_params.contains k) then
    db.foldlM (check_consistency_row phash_of fs)
      { exist_db_not_copied := [], exist_db_not_repo := [],
        exist_repo_not_db := scan_folder fs repo_path image_ext,
        exist_repo_incorrect_name := [] }
  else
    .error .typeError

/-- C3: every call to `check_consistency` raises `TypeError` at the
`scan_folder(self.repo_path, image_ext, recursive=True)` call, for every
store state, filesystem and extension list -- it never classifies any
record, contrary to the claim. -/
theorem check_consistency_always_type_error (phash_of : FsPath → String)
    (db : List MediaDBModel) (fs : FileSys) (repo_path : FsPath)
    (image_ext : List String) :
    check_consistency phash_of db fs repo_path image_ext = .error .typeError := by
  have h : ¬ (check_consistency_scan_kwargs.all
      (fun k => scan_folder_params.contains k) = true) := by decide
  unfold check_consistency
  rw [if_neg h]

/-- The tag map returned by `exifread.process_file`: tag name to the tag's
`printable` string.  A present tag object is truthy, so the walrus tests
`if val := tags.get(key)` take the first present tag. -/
abbrev TagMap := List (String × String)

/-- `tags.get(key)`: the printable string of the tag, when present. -/
def tget (tags : TagMap) (key : String) : Option String :=
  (tags.find? (fun kv => kv.1 == key)).map (fun kv => kv.2)

/-- A non-empty string of decimal digits. -/
def isDigits (s : String) : Bool :=
  decide (0 < s.length) && s.toList.all (fun c => c.isDigit)

/-- Numeric value of a digit string (garbage on non-digit input, which every
call site excludes beforehand). -/
def toNatD (s : String) : Nat := natOfDigits s.toList

/-- A calendar/clock field of at most two digits with value in `[lo, hi]`. -/
def fieldOk (s : String) (lo hi : Nat) : Bool :=
  isDigits s && decide (s.length ≤ 2) && decide (lo ≤ toNatD s)
    && decide (toNatD s ≤ hi)

/-- Model of `datetime.strptime(s, "%Y:%m:%d %H:%M:%S")`: a four-digit year
and in-range month, day, hour, minute, second fields separated exactly as in
the pattern; anything else raises `ValueError`.  (CPython additionally
checks the day against the month's length; no claim depends on that.) -/
def strptime_YmdHMS (s : String) : Except PyError PyDateTime :=
  match pySplitOn s " " with
  | [d, t] =>
    match pySplitOn d ":", pySplitOn t ":" with
    | [ys, ms, ds], [hs, mins, ss] =>
      if isDigits ys && decide (ys.length = 4) && fieldOk ms 1 12
          && fieldOk ds 1 31 && fieldOk hs 0 23 && fieldOk mins 0 59
          && fieldOk ss 0 59 then
        .ok ⟨toNatD ys, toNatD ms, toNatD ds, toNatD hs, toNatD mins, toNatD ss⟩
      else
        .error .valueError
    | _, _ => .error .valueError
  | _ => .error .valueError

/-- `app.utils.extract_first_integer` (utils.py lines 43-51): the leading
digits of the string, or the digits between a leading `[` and a comma;
`None` when neither regex matches. -/
def extract_first_integer (s : String) : Option Int :=
  let cs := s.toList
  let d1 := cs.takeWhile (fun c => c.isDigit)
  if 0 < d1.length then
    some (toNatD (String.mk d1) : Int)
  else
    match cs with
    | '[' :: rest =>
      let d2 := rest.takeWhile (fun c => c.isDigit)
      if 0 < d2.length && (rest.drop d2.length).headD ' ' == ',' then
        some (toNatD (String.mk d2) : Int)
      else none
    | _ => none

/-- Python `int(s)` on a string: optional surrounding whitespace, an optional
sign, then digits; otherwise `ValueError`. -/
def pyInt (s : String) : Except PyError Int :=
  match (pyTrim s).toList with
  | '-' :: ds =>
    if 0 < ds.length && ds.all (fun c => c.isDigit) then
      .ok (-(toNatD (String.mk ds) : Int))
    else .error .valueError
  | '+' :: ds =>
    if 0 < ds.length && ds.all (fun c => c.isDigit) then
      .ok (toNatD (String.mk ds) : Int)
    else .error .valueError
  | ds =>
    if 0 < ds.length && ds.all (fun c => c.isDigit) then
      .ok (toNatD (String.mk ds) : Int)
    else .error .valueError

/-- `app.utils.extract_fraction` (utils.py lines 28-40): the regex
`(\d+)(?:/(\d+))?` anchored at the start.  No match leaves
`number1`/`number2` unbound, so the line after the `if` raises
`UnboundLocalError` (a `NameError`); a zero denominator with a nonzero
numerator raises `ZeroDivisionError`. -/
def extract_fraction (s : String) : Except PyError Rat :=
  let cs := s.toList
  let ds := cs.takeWhile (fun c => c.isDigit)
  if ds.length = 0 then
    .error .nameError
  else
    let number1 : Rat := (toNatD (String.mk ds) : Nat)
    let number2 : Rat :=
      match cs.drop ds.length with
      | '/' :: r2 =>
        let ds2 := r2.takeWhile (fun c => c.isDigit)
        if ds2.length = 0 then 1 else ((toNatD (String.mk ds2) : Nat) : Rat)
      | _ => 1
    if number2 ≠ 0 then .ok (number1 / number2)
    else if number1 = 0 then .ok 0
    else .error .zeroDivisionError

/-- Python `str.strip("[]")`: remove leading and trailing characters drawn
from the bracket set. -/
def pyStripBrackets (s : String) : String :=
  let b := fun (c : Char) => c == '[' || c == ']'
  String.mk (((s.toList.dropWhile b).reverse.dropWhile b).reverse)

/-- `app.utils.parse_exifcoord_str` (utils.py lines 54-66): strip brackets,
split on ", " into exactly three fraction-or-integer tokens and combine them
as degrees + minutes/60 + seconds/3600; every failure inside the `try` is
caught and yields `None`. -/
def parse_exifcoord_str (s : String) : Option Rat :=
  match pySplitOn (pyStripBrackets s) ", " with
  | [a, b, c] =>
    match extract_fraction a, extract_fraction b, extract_fraction c with
    | .ok deg, .ok mn, .ok sc => some (deg + mn / 60 + sc / 3600)
    | _, _, _ => none
  | _ => none

/-- `app.utils.get_gpscoord_from_exif` (utils.py lines 69-97, identical in
exif.py): any of the four GPS tags absent returns `(None, None)`; with all
four present, `parse_exifcoord_str(...) * (1 if ref.upper() == "N" else -1)`
is computed for the latitude and likewise with "E" for the longitude --
when a parse returns `None` that multiplication raises `TypeError`. -/
def get_gpscoord_from_exif (exif_tags : TagMap) :
    Except PyError (Option Rat × Option Rat) :=
  match tget exif_tags "GPS GPSLongitude" with
  | none => .ok (none, none)
  | some lon_abs_exif_str =>
  match tget exif_tags "GPS GPSLatitude" with
  | none => .ok (none, none)
  | some lat_abs_exif_str =>
  match tget exif_tags "GPS GPSLongitudeRef" with
  | none => .ok (none, none)
  | some lon_ref_exif_str =>
  match tget exif_tags "GPS GPSLatitudeRef" with
  | none => .ok (none, none)
  | some lat_ref_exif_str =>
  match parse_exifcoord_str lat_abs_exif_str with
  | none => .error .typeError
  | some lat_abs =>
    let latitude := lat_abs * (if pyUpper lat_ref_exif_str == "N" then 1 else -1)
    match parse_exifcoord_str lon_abs_exif_str with
    | none => .error .typeError
    | some lon_abs =>
      let longitude := lon_abs * (if pyUpper lon_ref_exif_str == "E" then 1 else -1)
      .ok (some latitude, some longitude)

/-- The reverse-lookup collaborator of `get_location_from_gpscoord`: either
some step inside the `try` raises (network error, timeout, missing
"address" key -- all caught by the same `except`), or the three
`address.get` lookups succeed, each field individually optional. -/
inductive GeoLookup where
  | err : GeoLookup
  | addr (country state city : Option String) : GeoLookup

/-- The collaborator as a function of the (latitude, longitude) pair passed
to `geolocator.reverse`. -/
abbrev GeoCollab := Option Rat → Option Rat → GeoLookup

/-- Python truthiness of an optional float: `None` and 0.0 are falsy. -/
def pyTruthyR (x : Option Rat) : Bool :=
  match x with
  | none => false
  | some v => decide (v ≠ 0)

/-- The value `get_location_from_gpscoord` returns: either the bare
7-character string "unknown" or a (country, region, city) tuple. -/
inductive GeoRet where
  | strUnknown : GeoRet
  | triple (country region city : Option String) : GeoRet

/-- `get_location_from_gpscoord` (geolocation.py lines 26-40, identical in
app/utils.py): an absent or zero coordinate returns the string "unknown";
any collaborator failure is caught and returns the string "unknown"; a
successful lookup returns `(address.get("country"), address.get("state"),
address.get("city"))`. -/
def get_location_from_gpscoord (collab : GeoCollab)
    (latitude longitude : Option Rat) : GeoRet :=
  if !pyTruthyR latitude || !pyTruthyR longitude then .strUnknown
  else
    match collab latitude longitude with
    | .err => .strUnknown
    | .addr country state city => .triple country state city

/-- The fields of a constructed `GeoLocation` dataclass. -/
structure GeoLocationR where
  longitude : Option Rat
  latitude : Option Rat
  country : Option String
  state : Option String
  city : Option String
deriving DecidableEq, Repr

/-- `GeoLocation.__post_init__` (geolocation.py lines 14-23, identical in
logic.py): with truthy coordinates the result of
`get_location_from_gpscoord` is unpacked into three names -- unpacking the
7-character string "unknown" raises `ValueError`; with a falsy coordinate
the literal triple ("unknown", "unknown", "unknown") is used. -/
def GeoLocation_mk (collab : GeoCollab) (longitude latitude : Option Rat) :
    Except PyError GeoLocationR :=
  if pyTruthyR latitude && pyTruthyR longitude then
    match get_location_from_gpscoord collab latitude longitude with
    | .strUnknown => .error .valueError
    | .triple c r s => .ok ⟨longitude, latitude, c, r, s⟩
  else
    .ok ⟨longitude, latitude, some "unknown", some "unknown", some "unknown"⟩

/-- The attributes `ExifTags.process_tags` sets (logic.py lines 77-133). -/
structure ExifTagsR where
  camera : Option String
  datetime : Option PyDateTime
  width : Option Int
  height : Option Int
  resolution_units : Option String
  resolution_x : Option Int
  resolution_y : Option Int
  location_lat : Option Rat
  location_long : Option Rat
deriving DecidableEq, Repr

/-- The datetime branch of `ExifTags.process_tags` (logic.py lines 84-90,
identical in exif.py lines 32-38): prefer "EXIF DateTimeOriginal", fall back
to "Image DateTime", parse with the fixed pattern; both absent gives
`None`.  `strptime` errors are not caught. -/
def process_datetime (tags : TagMap) : Except PyError (Option PyDateTime) :=
  match tget tags "EXIF DateTimeOriginal" with
  | some v => (strptime_YmdHMS v).map some
  | none =>
    match tget tags "Image DateTime" with
    | some v => (strptime_YmdHMS v).map some
    | none => .ok none

/-- `ExifTags.process_tags` (logic.py lines 77-133): each attribute follows
its fallback chain; `int(val.printable)` for the resolutions and the GPS
computation can raise, and nothing here catches. -/
def ExifTags_process_tags (tags : TagMap) : Except PyError ExifTagsR := do
  let camera := tget tags "Image Model"
  let dt ← process_datetime tags
  let width :=
    match tget tags "EXIF ExifImageWidth" with
    | some v => extract_first_integer v
    | none =>
      match tget tags "Image ImageWidth" with
      | some v => extract_first_integer v
      | none => none
  let height :=
    match tget tags "EXIF ExifImageLength" with
    | some v => extract_first_integer v
    | none =>
      match tget tags "Image ImageLength" with
      | some v => extract_first_integer v
      | none => none
  let resolution_units := tget tags "Image ResolutionUnit"
  let resolution_x ←
    match tget tags "Image XResolution" with
    | some v => (pyInt v).map some
    | none => .ok none
  let resolution_y ←
    match tget tags "Image YResolution" with
    | some v => (pyInt v).map some
    | none => .ok none
  let coords ←
    match tget tags "Image GPSInfo" with
    | some _ => get_gpscoord_from_exif tags
    | none => .ok (none, none)
  .ok { camera := camera, datetime := dt, width := width, height := height,
        resolution_units := resolution_units, resolution_x := resolution_x,
        resolution_y := resolution_y,
        location_lat := coords.1, location_long := coords.2 }

/-- A collaborator that fails (times out) on every lookup. -/
def collabFail : GeoCollab := fun _ _ => .err

/-- A collaborator that answers with a country but no region and no city. -/
def collabPartial : GeoCollab := fun _ _ => .addr (some "PT") none none

/-- C6 counterexample: with coordinates (1, 1) and a failing reverse-lookup
collaborator, constructing a `GeoLocation` raises `ValueError` -- the
all-"unknown" triple is not returned and the exception propagates to the
caller. -/
theorem geolocation_failure_raises :
    GeoLocation_mk collabFail (some 1) (some 1) = .error .valueError := by rfl

/-- C6 amended: a falsy (absent or zero) coordinate yields the all-"unknown"
triple; with both coordinates truthy a collaborator failure makes
`get_location_from_gpscoord` return the single string "unknown", whose
unpacking in `GeoLocation.__post_init__` raises `ValueError` that
propagates; a successful lookup stores the three `address.get` results as
they are, absent fields staying `None` rather than "unknown". -/
theorem geolocation_spec (collab : GeoCollab) (longitude latitude : Option Rat) :
    (¬(pyTruthyR latitude = true ∧ pyTruthyR longitude = true) →
      GeoLocation_mk collab longitude latitude =
        .ok ⟨longitude, latitude, some "unknown", some "unknown", some "unknown"⟩) ∧
    (pyTruthyR latitude = true → pyTruthyR longitude = true →
      collab latitude longitude = .err →
      GeoLocation_mk collab longitude latitude = .error .valueError) ∧
    (∀ c r s, pyTruthyR latitude = true → pyTruthyR longitude = true →
      collab latitude longitude = .addr c r s →
      GeoLocation_mk collab longitude latitude =
        .ok ⟨longitude, latitude, c, r, s⟩) := by
  refine ⟨?_, ?_, ?_⟩
  · intro h
    have hb : (pyTruthyR latitude && pyTruthyR longitude) = false := by
      cases hl : pyTruthyR latitude <;> cases ho : pyTruthyR longitude <;>
        simp_all
    simp [GeoLocation_mk, hb]
  · intro hl ho hc
    simp [GeoLocation_mk, hl, ho, get_location_from_gpscoord, hc]
  · intro c r s hl ho hc
    simp [GeoLocation_mk, hl, ho, get_location_from_gpscoord, hc]

/-- Witness for the amended C6 at concrete inputs. -/
theorem geolocation_spec_witness :
    GeoLocation_mk collabFail none (some 1) =
      .ok ⟨none, some 1, some "unknown", some "unknown", some "unknown"⟩ ∧
    GeoLocation_mk collabFail (some 2) (some 1) = .error .valueError ∧
    GeoLocation_mk collabPartial (some 2) (some 1) =
      .ok ⟨some 2, some 1, some "PT", none, none⟩ :=
  ⟨(geolocation_spec collabFail none (some 1)).1 (by decide),
    (geolocation_spec collabFail (some 2) (some 1)).2.1 (by decide) (by decide) rfl,
    (geolocation_spec collabPartial (some 2) (some 1)).2.2 (some "PT") none none
      (by decide) (by decide) rfl⟩

/-- C7 counterexample: a file whose only timestamp tag is unparsable makes
`process_tags` raise `ValueError` -- the exception is not converted into an
absent value, contrary to the claim. -/
theorem process_tags_unparsable_datetime_raises :
    ExifTags_process_tags [("Image DateTime", "yesterday evening")] =
      .error .valueError := by rfl

/-- C7 amended: the timestamp is parsed from the fixed pattern, preferring
"EXIF DateTimeOriginal" and falling back to "Image DateTime"; both tags
absent yield an absent value; a present but unparsable tag raises
`ValueError`, which propagates out of `process_tags` to the caller. -/
theorem process_datetime_spec (tags : TagMap) :
    (tget tags "EXIF DateTimeOriginal" = none →
      tget tags "Image DateTime" = none → process_datetime tags = .ok none) ∧
    (∀ v d, tget tags "EXIF DateTimeOriginal" = some v →
      strptime_YmdHMS v = .ok d → process_datetime tags = .ok (some d)) ∧
    (∀ v d, tget tags "EXIF DateTimeOriginal" = none →
      tget tags "Image DateTime" = some v → strptime_YmdHMS v = .ok d →
      process_datetime tags = .ok (some d)) ∧
    (∀ v, tget tags "EXIF DateTimeOriginal" = some v →
      strptime_YmdHMS v = .error .valueError →
      process_datetime tags = .error .valueError ∧
      ExifTags_process_tags tags = .error .valueError) := by
  refine ⟨?_, ?_, ?_, ?_⟩
  · intro h1 h2
    simp [process_datetime, h1, h2]
  · intro v d h1 hv
    simp [process_datetime, h1, hv, Except.map]
  · intro v d h1 h2 hv
    simp [process_datetime, h1, h2, hv, Except.map]
  · intro v h1 hv
    have hd : process_datetime tags = .error .valueError := by
      simp [process_datetime, h1, hv, Except.map]
    refine ⟨hd, ?_⟩
    unfold ExifTags_process_tags
    rw [hd]
    rfl

/-- Witness for the amended C7 at concrete tag maps. -/
theorem process_datetime_spec_witness :
    process_datetime [] = .ok none ∧
    process_datetime
        [("EXIF DateTimeOriginal", "2023:05:20 14:03:22"),
          ("Image DateTime", "2001:01:01 00:00:00")] =
      .ok (some ⟨2023, 5, 20, 14, 3, 22⟩) ∧
    process_datetime [("Image DateTime", "2001:01:01 00:00:00")] =
      .ok (some ⟨2001, 1, 1, 0, 0, 0⟩) ∧
    ExifTags_process_tags [("EXIF DateTimeOriginal", "garbage")] =
      .error .valueError := by
  refine ⟨(process_datetime_spec []).1 rfl rfl, ?_, ?_, ?_⟩
  · exact (process_datetime_spec
      [("EXIF DateTimeOriginal", "2023:05:20 14:03:22"),
        ("Image DateTime", "2001:01:01 00:00:00")]).2.1
      "2023:05:20 14:03:22" ⟨2023, 5, 20, 14, 3, 22⟩ rfl rfl
  · exact (process_datetime_spec [("Image DateTime", "2001:01:01 00:00:00")]).2.2.1
      "2001:01:01 00:00:00" ⟨2001, 1, 1, 0, 0, 0⟩ rfl rfl rfl
  · exact ((process_datetime_spec [("EXIF DateTimeOriginal", "garbage")]).2.2.2
      "garbage" rfl rfl).2

/-- Shared evaluation lemma: with all four GPS tags present and both
coordinate strings parsed, `get_gpscoord_from_exif` returns the parsed
magnitudes multiplied by 1 exactly when the upper-cased reference is "N"
(latitude) resp. "E" (longitude), and by -1 otherwise. -/
theorem get_gpscoord_all_present (tags : TagMap) (lonS latS lonR latR : String)
    (v w : Rat)
    (h1 : tget tags "GPS GPSLongitude" = some lonS)
    (h2 : tget tags "GPS GPSLatitude" = some latS)
    (h3 : tget tags "GPS GPSLongitudeRef" = some lonR)
    (h4 : tget tags "GPS GPSLatitudeRef" = some latR)
    (hv : parse_exifcoord_str latS = some v)
    (hw : parse_exifcoord_str lonS = some w) :
    get_gpscoord_from_exif tags =
      .ok (some (v * (if pyUpper latR == "N" then 1 else -1)),
        some (w * (if pyUpper lonR == "E" then 1 else -1))) := by
  simp only [get_gpscoord_from_exif, h1, h2, h3, h4, hv, hw]

/-- Shared evaluation lemma: parsing "[10, 30, 0]" gives 10 + 30/60 = 21/2. -/
theorem parse_10_30_0 : parse_exifcoord_str "[10, 30, 0]" = some (21 / 2 : Rat) := by
  rw [show parse_exifcoord_str "[10, 30, 0]" =
      some (((10 : Nat) : Rat) / 1 + ((30 : Nat) : Rat) / 1 / 60
        + ((0 : Nat) : Rat) / 1 / 3600) from rfl]
  norm_num

/-- The latitude value the claim's wording prescribes: the parsed magnitude,
sign-flipped exactly when the latitude reference is "S".  Modelled from the
spec for comparison with `get_gpscoord_from_exif`. -/
def claim_latitude_value (raw ref : String) : Option Rat :=
  (parse_exifcoord_str raw).map (fun v => if ref = "S" then -v else v)

/-- A tag map with all four GPS tags present and latitude reference "Z". -/
def refZTags : TagMap :=
  [("GPS GPSLongitude", "[1, 0, 0]"), ("GPS GPSLatitude", "[10, 30, 0]"),
    ("GPS GPSLongitudeRef", "E"), ("GPS GPSLatitudeRef", "Z")]

/-- C8 counterexample: with latitude reference "Z" the code flips the sign
(it multiplies by -1 for every reference whose upper case differs from "N"),
while the claim's "sign-flipped when the reference is S" prescribes the
positive value 21/2 = 10 + 30/60. -/
theorem get_gpscoord_refZ_counterexample :
    get_gpscoord_from_exif refZTags = .ok (some (-(21 / 2 : Rat)), some 1) ∧
    claim_latitude_value "[10, 30, 0]" "Z" = some (21 / 2 : Rat) ∧
    ¬(-(21 / 2 : Rat) = (21 / 2 : Rat)) := by
  have hlon : parse_exifcoord_str "[1, 0, 0]" = some (1 : Rat) := by
    rw [show parse_exifcoord_str "[1, 0, 0]" =
        some (((1 : Nat) : Rat) / 1 + ((0 : Nat) : Rat) / 1 / 60
          + ((0 : Nat) : Rat) / 1 / 3600) from rfl]
    norm_num
  have h := get_gpscoord_all_present refZTags "[1, 0, 0]" "[10, 30, 0]" "E" "Z"
    (21 / 2 : Rat) (1 : Rat) rfl rfl rfl rfl parse_10_30_0 hlon
  have hz : (pyUpper "Z" == "N") = false := rfl
  have he : (pyUpper "E" == "E") = true := rfl
  refine ⟨?_, ?_, by norm_num⟩
  · rw [h]
    rw [hz, he]
    norm_num
  · have hzs : ¬("Z" : String) = "S" := by decide
    simp [claim_latitude_value, parse_10_30_0, if_neg hzs]

/-- C8 amended: the pair is present only when all four GPS tags are present
(any one missing yields `(None, None)`); when both coordinate strings parse,
the value is degrees + minutes/60 + seconds/3600 multiplied by 1 when the
upper-cased reference equals "N" (latitude) resp. "E" (longitude) and by -1
for any other reference -- which agrees with flipping on "S"/"W" for the
valid references; absent coordinates make the geolocation triple
all-"unknown". -/
theorem get_gpscoord_spec (tags : TagMap) (collab : GeoCollab) :
    ((tget tags "GPS GPSLongitude" = none ∨ tget tags "GPS GPSLatitude" = none ∨
      tget tags "GPS GPSLongitudeRef" = none ∨
      tget tags "GPS GPSLatitudeRef" = none) →
      get_gpscoord_from_exif tags = .ok (none, none)) ∧
    (∀ lonS latS lonR latR v w,
      tget tags "GPS GPSLongitude" = some lonS →
      tget tags "GPS GPSLatitude" = some latS →
      tget tags "GPS GPSLongitudeRef" = some lonR →
      tget tags "GPS GPSLatitudeRef" = some latR →
      parse_exifcoord_str latS = some v →
      parse_exifcoord_str lonS = some w →
      get_gpscoord_from_exif tags =
        .ok (some (v * (if pyUpper latR == "N" then 1 else -1)),
          some (w * (if pyUpper lonR == "E" then 1 else -1)))) ∧
    (GeoLocation_mk collab none none =
      .ok ⟨none, none, some "unknown", some "unknown", some "unknown"⟩) := by
  refine ⟨?_, ?_, rfl⟩
  · intro h
    rcases h with h1 | h2 | h3 | h4
    · simp only [get_gpscoord_from_exif, h1]
    · rcases ht : tget tags "GPS GPSLongitude" with - | lonS <;>
        simp only [get_gpscoord_from_exif, ht, h2]
    · rcases ht : tget tags "GPS GPSLongitude" with - | lonS <;>
        rcases ht2 : tget tags "GPS GPSLatitude" with - | latS <;>
          simp only [get_gpscoord_from_exif, ht, ht2, h3]
    · rcases ht : tget tags "GPS GPSLongitude" with - | lonS <;>
        rcases ht2 : tget tags "GPS GPSLatitude" with - | latS <;>
          rcases ht3 : tget tags "GPS GPSLongitudeRef" with - | lonR <;>
            simp only [get_gpscoord_from_exif, ht, ht2, ht3, h4]
  · intro lonS latS lonR latR v w h1 h2 h3 h4 hv hw
    exact get_gpscoord_all_present tags lonS latS lonR latR v w h1 h2 h3 h4 hv hw

/-- A tag map with one GPS tag (the latitude reference) missing. -/
def gpsMissingRefTags : TagMap :=
  [("GPS GPSLongitude", "[1, 0, 0]"), ("GPS GPSLatitude", "[10, 30, 0]"),
    ("GPS GPSLongitudeRef", "E")]

/-- A tag map with references "S" and "W". -/
def validGpsTags : TagMap :=
  [("GPS GPSLongitude", "[2, 0, 0]"), ("GPS GPSLatitude", "[10, 30, 0]"),
    ("GPS GPSLongitudeRef", "W"), ("GPS GPSLatitudeRef", "S")]

/-- Witness for the amended C8 at concrete tag maps. -/
theorem get_gpscoord_spec_witness :
    get_gpscoord_from_exif gpsMissingRefTags = .ok (none, none) ∧
    get_gpscoord_from_exif validGpsTags =
      .ok (some (-(21 / 2 : Rat)), some (-2 : Rat)) ∧
    GeoLocation_mk collabFail none none =
      .ok ⟨none, none, some "unknown", some "unknown", some "unknown"⟩ := by
  refine ⟨(get_gpscoord_spec gpsMissingRefTags collabFail).1
      (by right; right; right; rfl), ?_,
    (get_gpscoord_spec validGpsTags collabFail).2.2⟩
  have hlon : parse_exifcoord_str "[2, 0, 0]" = some (2 : Rat) := by
    rw [show parse_exifcoord_str "[2, 0, 0]" =
        some (((2 : Nat) : Rat) / 1 + ((0 : Nat) : Rat) / 1 / 60
          + ((0 : Nat) : Rat) / 1 / 3600) from rfl]
    norm_num
  have h := (get_gpscoord_spec validGpsTags collabFail).2.1
    "[2, 0, 0]" "[10, 30, 0]" "W" "S" (21 / 2 : Rat) (2 : Rat) rfl rfl rfl rfl
    parse_10_30_0 hlon
  have hs : (pyUpper "S" == "N") = false := rfl
  have hw2 : (pyUpper "W" == "E") = false := rfl
  rw [h, hs, hw2]
  norm_num

/-- Modelled from the spec: the configured extension-to-type map of §4.3 and
§6 (`get_type` is imported by logic.py from app.utils but is missing there);
an unknown extension yields an absent type. -/
def get_type (type_map : List (String × List String)) (ext : String) :
    Option String :=
  (type_map.find? (fun kv => kv.2.contains ext)).map (fun kv => kv.1)

/-- A candidate file as the pipeline sees it: its (absolute) path and size,
the tag map `exifread` yields for it, and the two content hashes -- the hash
providers are pure functions of the file's bytes, so they appear as
attributes here. -/
structure SourceFile where
  filepath : FsPath
  size : Nat
  tags : TagMap
  phash : String
  chash : String

/-- The attributes of a constructed `logic.Image`. -/
structure ImageR where
  filepath : FsPath
  size : Nat
  type : Option String
  perceptual_hash : String
  crypto_hash : String
  exif_tags : ExifTagsR
  geo_location : GeoLocationR

/-- `Image.__init__` (logic.py lines 146-169): size, type and the two hashes,
then `ExifTags` processing, then `GeoLocation` -- built from the EXIF
coordinates when both are truthy, from `(None, None)` otherwise.  Exceptions
from tag processing or geolocation propagate. -/
def Image_mk (type_map : List (String × List String)) (collab : GeoCollab)
    (f : SourceFile) : Except PyError ImageR := do
  let exif ← ExifTags_process_tags f.tags
  let geo ←
    if pyTruthyR exif.location_lat && pyTruthyR exif.location_long then
      GeoLocation_mk collab exif.location_long exif.location_lat
    else
      GeoLocation_mk collab none none
  .ok { filepath := f.filepath, size := f.size,
        type := get_type type_map (pyLower (pySuffix (fileName f.filepath))),
        perceptual_hash := f.phash, crypto_hash := f.chash,
        exif_tags := exif, geo_location := geo }

/-- The `ImageModel(...)` row built inside `process_file` (logic.py lines
221-242): `new_filepath` empty, `n_perceptual_hash` 0. -/
def image_to_row (img : ImageR) : MediaDBModel :=
  { original_filepath := img.filepath, file_type := img.type, size := img.size,
    perceptual_hash := img.perceptual_hash, crypto_hash := img.crypto_hash,
    camera := img.exif_tags.camera, datetime := img.exif_tags.datetime,
    width := img.exif_tags.width, height := img.exif_tags.height,
    resolution_units := img.exif_tags.resolution_units,
    resolution_x := img.exif_tags.resolution_x,
    resolution_y := img.exif_tags.resolution_y,
    location_longitude := img.geo_location.longitude,
    location_latitude := img.geo_location.latitude,
    location_country := img.geo_location.country,
    location_state := img.geo_location.state,
    location_city := img.geo_location.city,
    new_filepath := none, n_perceptual_hash := 0 }

/-- `MediaDatabase.update_newpath` (media_database.py lines 100-112): set
`new_filepath` on the rows matching `crypto_hash` (a no-op when none do). -/
def update_newpath (db : List MediaDBModel) (crypto_hash : String)
    (newpath : FsPath) : List MediaDBModel :=
  db.map (fun r =>
    if r.crypto_hash == crypto_hash then { r with new_filepath := some newpath }
    else r)

/-- The attribute names an `ExifTags` object carries: `_exif_tags` plus the
nine set by `process_tags` (logic.py lines 62-133).  Neither `filepath` nor
`crypto_hash` is among them. -/
def ExifTags_attrs : List String :=
  ["_exif_tags", "camera", "datetime", "width", "height", "resolution_units",
    "resolution_x", "resolution_y", "location_lat", "location_long"]

/-- Reading `image_obj.exif_tags.<name>`: `AttributeError` when `ExifTags`
has no such attribute. -/
def exiftags_getattr (name : String) : Except PyError Unit :=
  if ExifTags_attrs.contains name then .ok () else .error .attributeError

/-- `ImageOrganizer.process_file` after the `Image` is built (logic.py lines
221-287): insert the row; `None` from insert returns `False`; with copying
on, build `root/<year>/<month>/` (or `root/unknown/unknown/`) and the name
`<perceptual_hash>_<rank>.<suffix[1:].upper()>`; an existing file at the
destination returns `False` with nothing copied; otherwise the `try` block
first evaluates `str(image_obj.exif_tags.filepath)` -- an attribute
`ExifTags` does not have, so `AttributeError` is raised, caught by the bare
`except`, and `False` is returned with nothing copied and `new_filepath`
still empty.  (The later `image_obj.exif_tags.crypto_hash` read and the
`update_newpath` call are kept for fidelity; they are unreachable.)
Directory creation is not modelled: the filesystem holds files only. -/
def process_file_after_image (repo_path : FsPath) (db : List MediaDBModel)
    (fs : FileSys) (f : SourceFile) (img : ImageR) (do_copy : Bool) :
    List MediaDBModel × FileSys × Option Bool :=
  let step := insert_media db (image_to_row img)
  let db1 := step.1
  match step.2 with
  | none => (db1, fs, some false)
  | some n_perceptualhash =>
    if do_copy then
      let dest_folder :=
        match img.exif_tags.datetime with
        | some dt => repo_path ++ [toString dt.year, toString dt.month]
        | none => repo_path ++ ["unknown", "unknown"]
      let dest_name := img.perceptual_hash ++ "_" ++ toString n_perceptualhash
      let extension := String.mk ((pySuffix (fileName f.filepath)).toList.drop 1)
      let dest_filename := dest_name ++ "." ++ pyUpper extension
      let dest_filepath := dest_folder ++ [dest_filename]
      if fs.contains dest_filepath then
        (db1, fs, some false)
      else
        let tryBlock : Except PyError (List MediaDBModel × FileSys) := do
          let _ ← exiftags_getattr "filepath"
          let fs1 := dest_filepath :: fs
          let _ ← exiftags_getattr "crypto_hash"
          let db2 := update_newpath db1 img.crypto_hash dest_filepath
          .ok (db2, fs1)
        match tryBlock with
        | .ok (db2, fs1) => (db2, fs1, some true)
        | .error _ => (db1, fs, some false)
    else
      (db1, fs, none)

/-- `ImageOrganizer.process_file` (logic.py lines 215-287): build the
`Image` -- exceptions propagate to the caller -- then run the exception-free
remainder. -/
def process_file (type_map : List (String × List String)) (collab : GeoCollab)
    (repo_path : FsPath) (db : List MediaDBModel) (fs : FileSys)
    (f : SourceFile) (do_copy : Bool) :
    Except PyError (List MediaDBModel × FileSys × Option Bool) :=
  (Image_mk type_map collab f).map
    (fun img => process_file_after_image repo_path db fs f img do_copy)

/-- A concrete candidate file with no EXIF tags. -/
def fileA : SourceFile :=
  { filepath := ["src", "a.jpg"], size := 100, tags := [],
    phash := "ph", chash := "ch" }

/-- C4: evaluating `process_file` on a fresh file against an empty store and
empty filesystem: the insert succeeds (the row is stored, rank 0, empty
`new_filepath`), the destination `root/unknown/unknown/ph_0.JPG` is free,
and yet the call returns `False` and copies nothing -- the
`image_obj.exif_tags.filepath` read inside the copy block raises
`AttributeError`, so no file is ever copied to the claimed destination. -/
theorem process_file_never_copies :
    process_file [("jpeg", [".jpg"])] collabFail ["root"] [] [] fileA true =
      .ok ([{ original_filepath := ["src", "a.jpg"], camera := none,
              datetime := none, file_type := some "jpeg", size := 100,
              width := none, height := none, resolution_units := none,
              resolution_x := none, resolution_y := none,
              location_longitude := none, location_latitude := none,
              location_country := some "unknown",
              location_state := some "unknown", location_city := some "unknown",
              perceptual_hash := "ph", crypto_hash := "ch",
              new_filepath := none, n_perceptual_hash := 0 }],
        [], some false) := by rfl

/-- The inner loop of the `add` command (gui_typer.py lines 186-197): each
image path goes through `process_file`; a falsy return
(`False`) puts the name in `ignored_images`, a truthy one (`True`) in
`processed_images`.  Nothing catches around the call, so an exception from
`process_file` propagates and aborts the loop. -/
def add_images (type_map : List (String × List String)) (collab : GeoCollab)
    (repo_path : FsPath) :
    List MediaDBModel → FileSys → List SourceFile →
    Except PyError (List MediaDBModel × FileSys × List String × List String)
  | db, fs, [] => .ok (db, fs, [], [])
  | db, fs, f :: rest =>
    match process_file type_map collab repo_path db fs f true with
    | .error e => .error e
    | .ok (db1, fs1, ret) =>
      match add_images type_map collab repo_path db1 fs1 rest with
      | .error e => .error e
      | .ok (db2, fs2, ignored, processed) =>
        match ret with
        | some true => .ok (db2, fs2, ignored, fileName f.filepath :: processed)
        | _ => .ok (db2, fs2, fileName f.filepath :: ignored, processed)

/-- A source folder as the `add` command sees it after its `glob("**/")`
expansion: the folder's name, whether it exists on disk, and the image files
its `scan_folder` call finds in it. -/
structure SrcFolder where
  name : String
  onDisk : Bool
  files : List SourceFile

/-- The folder loop of the `add` command (gui_typer.py lines 131-208): a
folder that does not exist goes to `ignored_folders` and is skipped;
otherwise its images run through the inner loop.  An exception escaping
`process_file` propagates out of the whole command. -/
def add_run (type_map : List (String × List String)) (collab : GeoCollab)
    (repo_path : FsPath) :
    List MediaDBModel → FileSys → List SrcFolder →
    Except PyError
      (List MediaDBModel × FileSys × List String × List String × List String)
  | db, fs, [] => .ok (db, fs, [], [], [])
  | db, fs, folder :: rest =>
    if folder.onDisk then
      match add_images type_map collab repo_path db fs folder.files with
      | .error e => .error e
      | .ok (db1, fs1, igi, proc) =>
        match add_run type_map collab repo_path db1 fs1 rest with
        | .error e => .error e
        | .ok (db2, fs2, igf2, igi2, proc2) =>
          .ok (db2, fs2, igf2, igi ++ igi2, proc ++ proc2)
    else
      match add_run type_map collab repo_path db fs rest with
      | .error e => .error e
      | .ok (db1, fs1, igf, igi, proc) =>
        .ok (db1, fs1, folder.name :: igf, igi, proc)

/-- A candidate file whose only timestamp tag does not match the fixed
pattern. -/
def badFile : SourceFile :=
  { filepath := ["d", "bad.jpg"], size := 1,
    tags := [("Image DateTime", "not a date")], phash := "pb", chash := "cb" }

/-- C5 counterexample: a batch of one existing folder holding a file with an
unparsable timestamp followed by a sound file: `process_file` raises
`ValueError` out of `Image` construction, the exception escapes the batch
driver, and the second file is never processed -- no per-file report is
produced at all. -/
theorem add_run_aborts :
    add_run [("jpeg", [".jpg"])] collabFail ["root"] [] []
      [{ name := "d", onDisk := true, files := [badFile, fileA] }] =
      .error .valueError := by rfl

/-- Helper for C5: when every file's `Image` builds, the inner loop finishes
with a report that accounts for every file exactly once. -/
theorem add_images_total (type_map : List (String × List String))
    (collab : GeoCollab) (repo_path : FsPath) :
    ∀ (files : List SourceFile) (db : List MediaDBModel) (fs : FileSys),
      (∀ f ∈ files, ∃ img, Image_mk type_map collab f = .ok img) →
      ∃ db1 fs1 igi proc,
        add_images type_map collab repo_path db fs files =
          .ok (db1, fs1, igi, proc) ∧
        igi.length + proc.length = files.length
  | [], db, fs, _ => ⟨db, fs, [], [], rfl, rfl⟩
  | f :: rest, db, fs, h => by
    obtain ⟨img, himg⟩ := h f (List.mem_cons_self f rest)
    obtain ⟨db1, fs1, ret, hP⟩ :
        ∃ a b c, process_file_after_image repo_path db fs f img true = (a, b, c) :=
      ⟨_, _, _, rfl⟩
    have hpf : process_file type_map collab repo_path db fs f true =
        .ok (db1, fs1, ret) := by
      simp [process_file, himg, Except.map, hP]
    obtain ⟨db2, fs2, igi, proc, hrec, hlen⟩ :=
      add_images_total type_map collab repo_path rest db1 fs1
        (fun g hg => h g (List.mem_cons_of_mem f hg))
    rcases ret with - | b
    · exact ⟨db2, fs2, fileName f.filepath :: igi, proc,
        by simp only [add_images, hpf, hrec],
        by simp only [List.length_cons]; omega⟩
    · rcases b with - | -
      · exact ⟨db2, fs2, fileName f.filepath :: igi, proc,
          by simp only [add_images, hpf, hrec],
          by simp only [List.length_cons]; omega⟩
      · exact ⟨db2, fs2, igi, fileName f.filepath :: proc,
          by simp only [add_images, hpf, hrec],
          by simp only [List.length_cons]; omega⟩

/-- C5 amended: when `Image` construction succeeds for every candidate file
of every existing folder (no exception from metadata extraction or
geolocation), the batch driver runs to completion and reports: the missing
folders, in order, in the ignored-folders list, and every file of every
existing folder exactly once as ignored or processed -- duplicates and copy
failures come back as `False` from `process_file` and land among the
ignored, there is no distinct failed outcome.  When some file's `Image`
construction raises, the exception escapes the driver (see the
counterexample). -/
theorem add_run_spec (type_map : List (String × List String))
    (collab : GeoCollab) (repo_path : FsPath) :
    ∀ (folders : List SrcFolder) (db : List MediaDBModel) (fs : FileSys),
      (∀ fol ∈ folders, fol.onDisk = true → ∀ f ∈ fol.files,
        ∃ img, Image_mk type_map collab f = .ok img) →
      ∃ db2 fs2 igf igi proc,
        add_run type_map collab repo_path db fs folders =
          .ok (db2, fs2, igf, igi, proc) ∧
        igf = (folders.filter (fun fol => !fol.onDisk)).map
          (fun fol => fol.name) ∧
        igi.length + proc.length =
          ((folders.filter (fun fol => fol.onDisk)).map
            (fun fol => fol.files.length)).sum
  | [], db, fs, _ => ⟨db, fs, [], [], [], rfl, rfl, rfl⟩
  | folder :: rest, db, fs, h => by
    cases hd : folder.onDisk with
    | false =>
      obtain ⟨db2, fs2, igf, igi, proc, hrun, higf, hlen⟩ :=
        add_run_spec type_map collab repo_path rest db fs
          (fun fol hf => h fol (List.mem_cons_of_mem folder hf))
      refine ⟨db2, fs2, folder.name :: igf, igi, proc, ?_, ?_, ?_⟩
      · simp only [add_run, hd, Bool.false_eq_true, if_false, hrun]
      · simp [List.filter_cons, hd, higf]
      · simp [List.filter_cons, hd, hlen]
    | true =>
      obtain ⟨db1, fs1, igi, proc, him, hlen1⟩ :=
        add_images_total type_map collab repo_path folder.files db fs
          (h folder (List.mem_cons_self folder rest) hd)
      obtain ⟨db2, fs2, igf2, igi2, proc2, hrun, higf, hlen2⟩ :=
        add_run_spec type_map collab repo_path rest db1 fs1
          (fun fol hf => h fol (List.mem_cons_of_mem folder hf))
      refine ⟨db2, fs2, igf2, igi ++ igi2, proc ++ proc2, ?_, ?_, ?_⟩
      · simp only [add_run, hd, if_true, him, hrun]
      · simp [List.filter_cons, hd, higf]
      · simp only [List.filter_cons, hd, if_true, List.map_cons, List.sum_cons,
          List.length_append]
        omega

/-- The concrete folder list used by the C5 witness: one missing folder, one
existing folder with one sound file. -/
def foldersW : List SrcFolder :=
  [{ name := "gone", onDisk := false, files := [] },
    { name := "d", onDisk := true, files := [fileA] }]

/-- Witness for the amended C5 at a concrete batch. -/
theorem add_run_spec_witness :
    ∃ db2 fs2 igf igi proc,
      add_run [("jpeg", [".jpg"])] collabFail ["root"] [] [] foldersW =
        .ok (db2, fs2, igf, igi, proc) ∧
      igf = (foldersW.filter (fun fol => !fol.onDisk)).map (fun fol => fol.name) ∧
      igi.length + proc.length =
        ((foldersW.filter (fun fol => fol.onDisk)).map
          (fun fol => fol.files.length)).sum := by
  apply add_run_spec [("jpeg", [".jpg"])] collabFail ["root"] foldersW [] []
  intro fol hfol hdisk f hf
  fin_cases hfol
  · simp [foldersW] at hdisk
  · simp only [foldersW] at hf
    simp only [List.mem_singleton] at hf
    subst hf
    exact ⟨_, rfl⟩

end ShotBox
